import Mathlib

/-!
Verification development for the TokenizeRWA template.

This file embeds the logic-bearing parts of the repository as Lean
definitions and proves the specified properties about them:

* `decimalToBaseUnits` — the decimal-string → base-units conversion from
  `Account.tsx` (the `TokenizeAsset` component);
* the unified wallet facade `useUnifiedWallet` from `hooks/useUnifiedWallet`;
* the federated login/logout session logic from `Web3AuthProvider.tsx`;
* the memoized initializer `initWeb3Auth` from `web3authConfig`;
* the mint relay's `POST /api/pin-image` handler;
* the localStorage asset-history helpers `loadAssets` / `persistAsset`.

Strings from the TypeScript source are embedded as Lean `String` /
`List Char`; JavaScript `BigInt` arithmetic is embedded as `Nat`
(the relevant values are non-negative digit strings); JavaScript
truthiness on optional strings (`!!x`, `x || y`) is embedded explicitly.
External calls (the chain client, the Web3Auth SDK, Pinata, JSON.parse)
are embedded as explicit outcome parameters, so each handler is a pure
function of its inputs and the outcomes of the calls it makes.
-/

/-! ## Digit strings and JS-style helpers -/

/-- Value of a decimal digit list, most significant first.
Embeds JavaScript `BigInt(s)` on an all-digit string `s`
(`'0'.toNat = 48`). -/
def natOfDigits (l : List Char) : Nat :=
  l.foldl (fun a c => 10 * a + (c.toNat - 48)) 0

/-- JS truthiness of a `string | null | undefined` value: `null`,
`undefined` and the empty string are falsy. -/
def jsTruthyOpt : Option String → Bool
  | some s => !s.isEmpty
  | none => false

/-- JS `x || null` on a `string | null` value: the empty string collapses
to `null`. -/
def jsOrNull : Option String → Option String
  | some s => if s.isEmpty then none else some s
  | none => none

/-- JS `x || d` on a `string | undefined` value `x` and default `d`. -/
def jsOrDefault : Option String → String → String
  | some s, d => if s.isEmpty then d else s
  | none, d => d

/-- JS `String.prototype.trim` on the character list of a string:
drop whitespace from both ends. -/
def trimChars (l : List Char) : List Char :=
  ((l.dropWhile Char.isWhitespace).reverse.dropWhile Char.isWhitespace).reverse

/-- JS `v.split('.')`: split a character list at every `'.'`.
Always returns at least one part. -/
def splitOnDot : List Char → List (List Char)
  | [] => [[]]
  | c :: rest =>
    if c = '.' then [] :: splitOnDot rest
    else
      match splitOnDot rest with
      | [] => [[c]]
      | p :: ps => (c :: p) :: ps

/-- The regex `^\d+$` from the component's `isWholeNumber`. -/
def isWholeNumber (l : List Char) : Bool :=
  !l.isEmpty && l.all Char.isDigit

/-- One-or-more digits (the `\d+` building block of the amount regex). -/
def digits1 (l : List Char) : Bool :=
  !l.isEmpty && l.all Char.isDigit

/-- The amount regex `^\d+(\.\d+)?$` from `decimalToBaseUnits`:
one or more digits, optionally followed by a dot and one or more digits. -/
def matchesAmountFormat (l : List Char) : Bool :=
  match splitOnDot l with
  | [w] => digits1 w
  | [w, f] => digits1 w && digits1 f
  | _ => false

/-- The part of `v` before the first dot (`v.split('.')[0]`). -/
def wholePart (l : List Char) : List Char :=
  (splitOnDot l).headD []

/-- The part of `v` after the first dot, or `[]` when there is no dot
(the destructuring `const [wholeRaw, fracRaw = ''] = v.split('.')`). -/
def fracPart (l : List Char) : List Char :=
  ((splitOnDot l).drop 1).headD []

/-- Length of the fractional part of a decimal string. -/
def fracLen (l : List Char) : Nat :=
  (fracPart l).length

/-- JS `String.prototype.padEnd(n, c)`. -/
def padEnd (l : List Char) (n : Nat) (c : Char) : List Char :=
  l ++ List.replicate (n - l.length) c

/-- Whether a character list starts with a digit (the lookahead `(?=\d)`). -/
def nextIsDigit : List Char → Bool
  | c :: _ => c.isDigit
  | [] => false

/-- The regex replace `combined.replace(/^0+(?=\d)/, '')` restricted to
digit strings: drop leading `'0'` characters as long as another digit
follows (so at least one digit is kept). -/
def dropLeadingZeros : List Char → List Char
  | [] => []
  | c :: rest =>
    if c = '0' && nextIsDigit rest then dropLeadingZeros rest
    else c :: rest

/-! ## Amount Conversion (`decimalToBaseUnits`, Account.tsx lines 135–154) -/

/-- The three classified failures of `decimalToBaseUnits`
(`'Amount is required'`, `'Invalid amount format'`,
`'Too many decimal places (max d)'`). -/
inductive AmountError
  | EmptyAmount
  | InvalidFormat
  | TooManyFractionalDigits
deriving DecidableEq, Repr

/-- Embedding of `decimalToBaseUnits(value, decimals)`:
trim, empty check, format regex, split at the dot, fractional-length
check, right-pad the fraction, concatenate, strip leading zeros keeping
one digit, and read the digit string as an arbitrary-precision integer. -/
def decimalToBaseUnits (value : String) (decimals : Nat) : Except AmountError Nat :=
  let v := trimChars value.data
  if v.isEmpty then .error .EmptyAmount
  else if !matchesAmountFormat v then .error .InvalidFormat
  else
    let wholeRaw := wholePart v
    let fracRaw := fracPart v
    let whole := if wholeRaw.isEmpty then ['0'] else wholeRaw
    let frac := fracRaw
    if decimals < frac.length then .error .TooManyFractionalDigits
    else
      let fracPadded := padEnd frac decimals '0'
      let combined := dropLeadingZeros (whole ++ fracPadded)
      .ok (natOfDigits (if combined.isEmpty then ['0'] else combined))

/-- The mathematically exact rational value of an accepted decimal string
`W` or `W.F`: `W + F / 10^|F|`. Stated from the spec's words ("the
integer equal to v * 10^d"), independent of the conversion routine. -/
def ratOfDecimal (l : List Char) : ℚ :=
  match splitOnDot l with
  | [w] => (natOfDigits w : ℚ)
  | [w, f] => (natOfDigits w : ℚ) + (natOfDigits f : ℚ) / (10 : ℚ) ^ f.length
  | _ => 0

/-! ## The create path (`handleTokenize`, Account.tsx lines 304–391) -/

/-- The on-chain total computed by `handleTokenize`:
`BigInt(total) * 10n ** BigInt(d)`. -/
def handleTokenizeOnChainTotal (total : String) (d : Nat) : Nat :=
  natOfDigits total.data * 10 ^ d

/-! ## Unified wallet facade (`useUnifiedWallet`, hooks/useUnifiedWallet.ts) -/

/-- The Algorand account derived from the federated (Web3Auth) session. -/
structure AlgorandAccountFromWeb3Auth where
  address : String
deriving DecidableEq, Repr

/-- Observable state of the federated provider as read by the facade
(`isConnected`, `algorandAccount` from `useWeb3Auth()`). -/
structure Web3AuthState where
  isConnected : Bool
  algorandAccount : Option AlgorandAccountFromWeb3Auth
deriving DecidableEq, Repr

/-- Observable state of the traditional provider as read by the facade
(`activeAddress` from `useWallet()`, a `string | null`). -/
structure TraditionalWalletState where
  activeAddress : Option String
deriving DecidableEq, Repr

/-- The facade's wallet kind (`'web3auth' | 'traditional' | null` in the
source; the spec calls `web3auth` the federated kind). -/
inductive WalletKind
  | web3auth
  | traditional
deriving DecidableEq, Repr

/-- Embeds `const isWeb3AuthActive = isConnected && !!algorandAccount`. -/
def isWeb3AuthActive (w : Web3AuthState) : Bool :=
  w.isConnected && w.algorandAccount.isSome

/-- Embeds `const isTraditionalActive = !!traditional.activeAddress`
(JS truthiness: the empty string is falsy). -/
def isTraditionalActive (t : TraditionalWalletState) : Bool :=
  jsTruthyOpt t.activeAddress

/-- Embeds `activeAddress = isWeb3AuthActive ? algorandAccount!.address
: traditional.activeAddress || null`. -/
def unifiedActiveAddress (w : Web3AuthState) (t : TraditionalWalletState) :
    Option String :=
  if isWeb3AuthActive w then w.algorandAccount.map (·.address)
  else jsOrNull t.activeAddress

/-- Embeds `walletType = isWeb3AuthActive ? 'web3auth'
: isTraditionalActive ? 'traditional' : null`. -/
def unifiedWalletKind (w : Web3AuthState) (t : TraditionalWalletState) :
    Option WalletKind :=
  if isWeb3AuthActive w then some .web3auth
  else if isTraditionalActive t then some .traditional
  else none

/-! ## Unified disconnect (`useUnifiedWallet`, lines 36–39) -/

/-- Which teardowns the facade's `disconnect` invokes:
`if (isWeb3AuthActive) await logout()` and
`if (isTraditionalActive) await traditional.activeWallet?.disconnect()`. -/
structure DisconnectCalls where
  web3AuthLogout : Bool
  traditionalDisconnect : Bool
deriving DecidableEq, Repr

/-- Effect of the federated logout on the federated provider's observable
state: `Web3AuthProvider.logout` clears the React state
(`setIsConnected(false)`, `setAlgorandAccount(null)`). -/
def web3AuthLogoutState : Web3AuthState :=
  { isConnected := false, algorandAccount := none }

/-- Effect of the active traditional adapter's `disconnect()` on the
traditional provider's observable state. Modelled from the spec:
the adapter itself lives in the external wallet SDK; per §4.2 its
`disconnect()` "tears down the active adapter's session", clearing the
active address. -/
def traditionalDisconnectState : TraditionalWalletState :=
  { activeAddress := none }

/-- The facade's `disconnect`: run the federated logout when the federated
path is active, the adapter disconnect when the traditional path is
active, and return the provider states once both teardowns are reflected. -/
def unifiedDisconnect (w : Web3AuthState) (t : TraditionalWalletState) :
    DisconnectCalls × Web3AuthState × TraditionalWalletState :=
  (⟨isWeb3AuthActive w, isTraditionalActive t⟩,
   if isWeb3AuthActive w then web3AuthLogoutState else w,
   if isTraditionalActive t then traditionalDisconnectState else t)

/-! ## Federated login (`Web3AuthProvider.tsx`, `login`, lines 87–133) -/

/-- Opaque handle standing for the `IProvider` returned by the SDK. -/
structure ProviderHandle where
  id : Nat
deriving DecidableEq, Repr

/-- The display profile fetched after a connect. -/
structure Web3AuthUserInfo where
  name : Option String
  email : Option String
deriving DecidableEq, Repr

/-- The React state of `Web3AuthProvider` touched by `login`. -/
structure Web3AuthSessionState where
  isConnected : Bool
  provider : Option ProviderHandle
  algorandAccount : Option AlgorandAccountFromWeb3Auth
  userInfo : Option Web3AuthUserInfo
  error : Option String
  isLoading : Bool
deriving DecidableEq, Repr

/-- Outcomes of the external calls one `login` execution makes:
`connectTo`/`connect` (may throw, may resolve to `null`),
`getAlgorandAccount` (may throw), and `getWeb3AuthUserInfo`
(never throws — it catches internally and resolves to `null`). -/
structure LoginEnv where
  connectResult : Except String (Option ProviderHandle)
  deriveResult : Except String AlgorandAccountFromWeb3Auth
  userInfoResult : Option Web3AuthUserInfo
deriving Repr

/-- The `catch` block of `login`: record the message and clear
`isConnected`, `provider`, `algorandAccount` and `userInfo`. -/
def loginCatch (s : Web3AuthSessionState) (msg : String) : Web3AuthSessionState :=
  { s with error := some msg, isConnected := false, provider := none,
           algorandAccount := none, userInfo := none }

/-- Embedding of `login`: the guard on the memoized instance, the
`try` body (connect, mark connected, derive the Algorand account, fetch
the profile), the `catch` rollback, and the `finally` clearing
`isLoading`. -/
def login (hasInstance : Bool) (env : LoginEnv) (s : Web3AuthSessionState) :
    Web3AuthSessionState :=
  if !hasInstance then { s with error := some "Web3Auth not initialized" }
  else
    let s1 := { s with isLoading := true, error := none }
    let result :=
      match env.connectResult with
      | .error e => loginCatch s1 e
      | .ok none => loginCatch s1 "Failed to connect Web3Auth provider"
      | .ok (some p) =>
        let s2 := { s1 with provider := some p, isConnected := true }
        match env.deriveResult with
        | .error e => loginCatch s2 e
        | .ok acct =>
          let s3 := { s2 with algorandAccount := some acct }
          match env.userInfoResult with
          | some u => { s3 with userInfo := some u }
          | none => s3
    { result with isLoading := false }

/-- A failing login execution: the connect call did not produce a
provider (it threw or resolved to `null`), or account derivation threw. -/
def loginFails (env : LoginEnv) : Prop :=
  (∀ p, env.connectResult ≠ .ok (some p)) ∨ (∃ e, env.deriveResult = .error e)

/-! ## Asset history store (`Account.tsx` lines 110–128) and `handleTokenize` -/

/-- A `CreatedAsset` record as persisted to localStorage. -/
structure CreatedAsset where
  assetId : Nat
  assetName : String
  unitName : String
  total : String
  decimals : String
  url : Option String
  manager : Option String
  reserve : Option String
  freeze : Option String
  clawback : Option String
  createdAt : String
deriving DecidableEq, Repr

/-- Embeds `persistAsset`: prepend the new record to the stored list
(`const next = [asset, ...existing]`), most recent first. -/
def persistAsset (asset : CreatedAsset) (stored : List CreatedAsset) :
    List CreatedAsset :=
  asset :: stored

/-- The form state read by `handleTokenize`. -/
structure TokenizeInputs where
  hasSigner : Bool
  activeAddress : Option String
  assetName : String
  unitName : String
  total : String
  decimals : String
  url : String
  manager : String
  reserve : String
  freeze : String
  clawback : String
deriving DecidableEq, Repr

/-- Embedding of `handleTokenize` restricted to its effect on the
persisted asset-history list: the validation guards abort without
touching storage, a thrown `assetCreate` lands in the `catch` branch
(storage untouched), and only a successful submission reaches
`persistAsset`. `createResult` is the outcome of
`algorand.send.assetCreate`, `now` the creation timestamp. -/
def handleTokenize (inp : TokenizeInputs) (createResult : Except String Nat)
    (now : String) (stored : List CreatedAsset) : List CreatedAsset :=
  if !inp.hasSigner || !jsTruthyOpt inp.activeAddress then stored
  else if inp.assetName.isEmpty || inp.unitName.isEmpty then stored
  else if !isWholeNumber inp.total.data then stored
  else if !isWholeNumber inp.decimals.data then stored
  else if 19 < natOfDigits inp.decimals.data then stored
  else
    match createResult with
    | .error _ => stored
    | .ok assetId =>
      persistAsset
        { assetId := assetId
          assetName := inp.assetName
          unitName := inp.unitName
          total := inp.total
          decimals := inp.decimals
          url := if inp.url.isEmpty then none else some inp.url
          manager := if inp.manager.isEmpty then none else some inp.manager
          reserve := if inp.reserve.isEmpty then none else some inp.reserve
          freeze := if inp.freeze.isEmpty then none else some inp.freeze
          clawback := if inp.clawback.isEmpty then none else some inp.clawback
          createdAt := now } stored

/-! ## Federated initializer (`initWeb3Auth`, web3authConfig, lines 7–61) -/

/-- The module-level `Web3Auth` instance (only its distinguishing
configuration is observable in the model). -/
structure Web3AuthInstanceModel where
  clientId : String
deriving DecidableEq, Repr

/-- Failures of `initWeb3Auth`: the thrown
`'VITE_WEB3AUTH_CLIENT_ID is not configured'` error, or a failure thrown
by `initModal()`. -/
inductive InitError
  | missingClientId
  | initModalFailed
deriving DecidableEq, Repr

/-- Embedding of `initWeb3Auth`. The module-level memo
`let web3authInstance : Web3Auth | null` is passed and returned
explicitly. `clientId` is `import.meta.env.VITE_WEB3AUTH_CLIENT_ID`
(`if (!clientId) throw` — JS truthiness), `initModalOk` the outcome of
`await web3authInstance.initModal()`. Note the source assigns the memo
before awaiting `initModal()`. -/
def initWeb3Auth (clientId : Option String) (initModalOk : Bool)
    (st : Option Web3AuthInstanceModel) :
    Except InitError Web3AuthInstanceModel × Option Web3AuthInstanceModel :=
  match st with
  | some inst => (.ok inst, some inst)
  | none =>
    if !jsTruthyOpt clientId then (.error .missingClientId, none)
    else
      let inst : Web3AuthInstanceModel := ⟨jsOrDefault clientId ""⟩
      if initModalOk then (.ok inst, some inst)
      else (.error .initModalFailed, some inst)

/-! ## Mint relay (`POST /api/pin-image`, backend app) -/

/-- The multipart upload as seen by the handler (`req.file`). -/
structure UploadedFile where
  originalname : Option String
deriving DecidableEq, Repr

/-- The diagnostic fields the catch block probes on a Pinata failure:
`error?.response?.data?.error`, `error?.response?.data`,
`error?.message`. -/
structure PinataError where
  responseDataError : Option String
  responseData : Option String
  message : Option String
deriving DecidableEq, Repr

/-- The JSON body and status the handler responds with. -/
structure PinImageResponse where
  status : Nat
  metadataUrl : Option String
  error : Option String
deriving DecidableEq, Repr

/-- The catch block's message extraction:
`error?.response?.data?.error || error?.response?.data || error?.message
|| 'Failed to pin to IPFS.'`. -/
def extractPinErrorMessage (e : PinataError) : String :=
  jsOrDefault e.responseDataError
    (jsOrDefault e.responseData
      (jsOrDefault e.message "Failed to pin to IPFS."))

/-- Embedding of the `POST /api/pin-image` handler's response logic:
no file → 400; pin the image, pin the metadata JSON, respond 200 with
`ipfs://<metadata hash>`; any pinning failure → 500 with the extracted
message. `pinFileResult` / `pinJsonResult` are the outcomes of
`pinata.pinFileToIPFS` / `pinata.pinJSONToIPFS` (an `IpfsHash` each on
success). The optional `metaName`/`metaDescription`/`properties` fields
only feed the pinned metadata document, not the response shape, and are
not modelled. -/
def pinImageHandler (file : Option UploadedFile)
    (pinFileResult : Except PinataError String)
    (pinJsonResult : Except PinataError String) : PinImageResponse :=
  match file with
  | none => { status := 400, metadataUrl := none, error := some "No file uploaded" }
  | some _ =>
    match pinFileResult with
    | .error e =>
        { status := 500, metadataUrl := none, error := some (extractPinErrorMessage e) }
    | .ok _imageHash =>
      match pinJsonResult with
      | .error e =>
          { status := 500, metadataUrl := none, error := some (extractPinErrorMessage e) }
      | .ok jsonHash =>
          { status := 200, metadataUrl := some ("ipfs://" ++ jsonHash), error := none }

/-! ## `loadAssets` (Account.tsx lines 110–117 / TokenizeAsset.tsx lines 33–40) -/

/-- The `try` body of `loadAssets`:
`const raw = localStorage.getItem(STORAGE_KEY);
return raw ? JSON.parse(raw) : []` — the JSON parse (with its unchecked
cast to `CreatedAsset[]`) may throw, which this body propagates.
`raw` is the stored value (`null` when the key is absent) and
`parse` the outcome of `JSON.parse` on a given string. -/
def loadAssetsBody (raw : Option String)
    (parse : String → Except String (List CreatedAsset)) :
    Except String (List CreatedAsset) :=
  match raw with
  | some s => if s.isEmpty then .ok [] else parse s
  | none => .ok []

/-- Embedding of `loadAssets`: the `try`/`catch` wrapper that turns any
parse failure into the empty list, making the function total at its
interface. -/
def loadAssets (raw : Option String)
    (parse : String → Except String (List CreatedAsset)) : List CreatedAsset :=
  match loadAssetsBody raw parse with
  | .ok l => l
  | .error _ => []

/-! ## Theorems -/

example : decimalToBaseUnits "0" 6 = .ok 0 := by rfl
example : decimalToBaseUnits "1" 0 = .ok 1 := by rfl
example : decimalToBaseUnits "1.5" 6 = .ok 1500000 := by rfl
example : decimalToBaseUnits "" 3 = .error .EmptyAmount := by rfl
example : decimalToBaseUnits "   " 3 = .error .EmptyAmount := by rfl
example : decimalToBaseUnits "-1" 3 = .error .InvalidFormat := by rfl
example : decimalToBaseUnits "1.2345" 2 = .error .TooManyFractionalDigits := by rfl
example : decimalToBaseUnits "007.25" 4 = .ok 72500 := by rfl

theorem natOfDigits_foldl (l : List Char) :
    ∀ i : Nat, l.foldl (fun a c => 10 * a + (c.toNat - 48)) i
      = i * 10 ^ l.length + natOfDigits l := by
  induction l with
  | nil => intro i; simp [natOfDigits]
  | cons c t ih =>
      intro i
      simp only [natOfDigits, List.foldl_cons, List.length_cons] at *
      rw [ih (10 * i + (c.toNat - 48)), ih (10 * 0 + (c.toNat - 48))]
      ring

theorem natOfDigits_append (a b : List Char) :
    natOfDigits (a ++ b) = natOfDigits a * 10 ^ b.length + natOfDigits b := by
  simp only [natOfDigits, List.foldl_append]
  exact natOfDigits_foldl b _

theorem natOfDigits_cons_zero (l : List Char) :
    natOfDigits ('0' :: l) = natOfDigits l := by
  have h0 : 10 * 0 + ('0'.toNat - 48) = 0 := rfl
  simp only [natOfDigits, List.foldl_cons, h0]

theorem natOfDigits_replicate_zero (k : Nat) :
    natOfDigits (List.replicate k '0') = 0 := by
  induction k with
  | zero => rfl
  | succ n ih => rw [List.replicate_succ, natOfDigits_cons_zero, ih]

theorem natOfDigits_dropLeadingZeros (l : List Char) :
    natOfDigits (dropLeadingZeros l) = natOfDigits l := by
  induction l with
  | nil => rfl
  | cons c rest ih =>
      rw [dropLeadingZeros]
      split
      · next h =>
          have hc : c = '0' := by
            have := (Bool.and_eq_true _ _).mp h |>.1
            exact decide_eq_true_eq.mp this
          rw [ih, hc, natOfDigits_cons_zero]
      · rfl

theorem natOfDigits_orZero (l : List Char) :
    natOfDigits (if l.isEmpty then ['0'] else l) = natOfDigits l := by
  cases l <;> rfl

/-- Core computation of `decimalToBaseUnits`: concatenating the whole part
with the right-padded fraction and stripping leading zeros yields the
digit value of `w ++ f` scaled by `10 ^ (d - |f|)`. -/
theorem natOfDigits_combined (w f : List Char) (d : Nat) :
    natOfDigits (dropLeadingZeros (w ++ padEnd f d '0')) =
      natOfDigits (w ++ f) * 10 ^ (d - f.length) := by
  rw [natOfDigits_dropLeadingZeros, padEnd, ← List.append_assoc, natOfDigits_append,
    natOfDigits_replicate_zero, List.length_replicate, Nat.add_zero]

theorem splitOnDot_ne_nil (l : List Char) : splitOnDot l ≠ [] := by
  cases l with
  | nil => simp [splitOnDot]
  | cons c rest =>
      rw [splitOnDot]
      split
      · simp
      · split <;> simp

theorem splitOnDot_no_dot (l : List Char) (h : '.' ∉ l) : splitOnDot l = [l] := by
  induction l with
  | nil => rfl
  | cons c rest ih =>
      have hc : ¬ c = '.' := fun e => h (e ▸ List.mem_cons_self c rest)
      have hr : '.' ∉ rest := fun m => h (List.mem_cons_of_mem _ m)
      rw [splitOnDot, if_neg hc, ih hr]

theorem matchesAmountFormat_not_nil : matchesAmountFormat [] = false := rfl

theorem digits1_ne_nil {l : List Char} (h : digits1 l = true) : l.isEmpty = false := by
  rcases (Bool.and_eq_true _ _).mp h with ⟨h1, _⟩
  simpa using h1

theorem wholePart_ne_nil_of_format {l : List Char}
    (h : matchesAmountFormat l = true) : (wholePart l).isEmpty = false := by
  rw [matchesAmountFormat] at h
  rw [wholePart]
  cases hs : splitOnDot l with
  | nil => exact absurd hs (splitOnDot_ne_nil l)
  | cons w ps =>
      rw [hs] at h
      cases ps with
      | nil => simpa using digits1_ne_nil (by simpa using h)
      | cons f ps2 =>
          cases ps2 with
          | nil =>
              rcases (Bool.and_eq_true _ _).mp (by simpa using h) with ⟨hw, _⟩
              simpa using digits1_ne_nil hw
          | cons _ _ => simp at h

theorem format_ne_nil {l : List Char}
    (h : matchesAmountFormat l = true) : l.isEmpty = false := by
  cases hc : l with
  | nil => rw [hc] at h; exact absurd h (by simp [matchesAmountFormat, splitOnDot, digits1])
  | cons _ _ => rfl

/-- The successful branch of `decimalToBaseUnits` in closed form. -/
theorem decimalToBaseUnits_ok_form (v : String) (d : Nat)
    (hfmt : matchesAmountFormat (trimChars v.data) = true)
    (hfrac : fracLen (trimChars v.data) ≤ d) :
    decimalToBaseUnits v d =
      .ok (natOfDigits (wholePart (trimChars v.data) ++ fracPart (trimChars v.data)) *
        10 ^ (d - fracLen (trimChars v.data))) := by
  have hne : (trimChars v.data).isEmpty = false := format_ne_nil hfmt
  have hw : (wholePart (trimChars v.data)).isEmpty = false := wholePart_ne_nil_of_format hfmt
  have hcond : ¬ (d < (fracPart (trimChars v.data)).length) := by
    rw [fracLen] at hfrac; omega
  simp only [decimalToBaseUnits, hne, Bool.false_eq_true, if_false, hfmt, Bool.not_true, hw,
    hcond, if_true]
  rw [natOfDigits_orZero, natOfDigits_combined, fracLen]

/-- C2: for every accepted decimal string and every decimals value `d` in
[0,19] whose fractional part is no longer than `d`, `decimalToBaseUnits`
returns exactly the integer `v * 10^d`, with exact integer arithmetic. -/
theorem decimalToBaseUnits_exactValue (v : String) (d : Nat)
    (hfmt : matchesAmountFormat (trimChars v.data) = true)
    (hfrac : fracLen (trimChars v.data) ≤ d) (hd : d ≤ 19) :
    ∃ n : Nat, decimalToBaseUnits v d = .ok n ∧
      (n : ℚ) = ratOfDecimal (trimChars v.data) * 10 ^ d := by
  refine ⟨_, decimalToBaseUnits_ok_form v d hfmt hfrac, ?_⟩
  rw [ratOfDecimal, wholePart, fracPart, fracLen, fracPart] at *
  cases hs : splitOnDot (trimChars v.data) with
  | nil => exact absurd hs (splitOnDot_ne_nil _)
  | cons w ps =>
      cases ps with
      | nil =>
          simp only [List.headD_cons, List.drop_succ_cons, List.drop_zero, List.headD_nil,
            List.append_nil, List.length_nil, Nat.sub_zero]
          push_cast
          ring
      | cons f ps2 =>
          cases ps2 with
          | nil =>
              rw [hs] at hfrac
              simp only [List.headD_cons, List.drop_succ_cons, List.drop_zero] at hfrac ⊢
              obtain ⟨k, hk⟩ : ∃ k, d = f.length + k := ⟨d - f.length, by omega⟩
              subst hk
              rw [natOfDigits_append, Nat.add_sub_cancel_left, pow_add]
              have h10 : ((10 : ℚ) ^ f.length) ≠ 0 := pow_ne_zero _ (by norm_num)
              push_cast
              field_simp
              ring
          | cons p ps3 =>
              rw [matchesAmountFormat, hs] at hfmt
              simp at hfmt

theorem decimalToBaseUnits_exactValue_cases :
    decimalToBaseUnits "0" 6 = .ok 0 ∧ decimalToBaseUnits "1" 0 = .ok 1 ∧
      decimalToBaseUnits "1.5" 6 = .ok 1500000 := by
  refine ⟨rfl, rfl, rfl⟩

/-- C3: every failure of `decimalToBaseUnits` is classified into exactly
one of the three errors, checked in order on the trimmed input, and no
other input fails. -/
theorem decimalToBaseUnits_error_classification (v : String) (d : Nat) :
    (decimalToBaseUnits v d = .error .EmptyAmount ↔ (trimChars v.data).isEmpty = true) ∧
    (decimalToBaseUnits v d = .error .InvalidFormat ↔
      (trimChars v.data).isEmpty = false ∧ matchesAmountFormat (trimChars v.data) = false) ∧
    (decimalToBaseUnits v d = .error .TooManyFractionalDigits ↔
      (trimChars v.data).isEmpty = false ∧ matchesAmountFormat (trimChars v.data) = true ∧
        d < fracLen (trimChars v.data)) ∧
    ((∃ n, decimalToBaseUnits v d = .ok n) ↔
      (trimChars v.data).isEmpty = false ∧ matchesAmountFormat (trimChars v.data) = true ∧
        fracLen (trimChars v.data) ≤ d) := by
  by_cases h1 : (trimChars v.data).isEmpty
  · simp [decimalToBaseUnits, h1]
  · by_cases h2 : matchesAmountFormat (trimChars v.data)
    · by_cases h3 : d < fracLen (trimChars v.data)
      · rw [fracLen] at h3
        simp only [decimalToBaseUnits, Bool.not_eq_true] at *
        simp [h1, h2, h3, fracLen]
      · rw [fracLen] at h3
        simp only [decimalToBaseUnits, Bool.not_eq_true] at *
        simp [h1, h2, h3, fracLen]
        omega
    · simp only [decimalToBaseUnits, Bool.not_eq_true] at *
      simp [h1, h2]

theorem decimalToBaseUnits_exactValue_witness :
    matchesAmountFormat (trimChars ("1.5" : String).data) = true ∧
    fracLen (trimChars ("1.5" : String).data) ≤ 6 ∧ 6 ≤ 19 ∧
    ∃ n : Nat, decimalToBaseUnits "1.5" 6 = .ok n ∧
      (n : ℚ) = ratOfDecimal (trimChars ("1.5" : String).data) * 10 ^ 6 :=
  ⟨rfl, by decide, by decide,
    decimalToBaseUnits_exactValue "1.5" 6 rfl (by decide) (by decide)⟩

theorem isDigit_not_whitespace {c : Char} (h : c.isDigit = true) :
    c.isWhitespace = false := by
  by_contra hw
  rw [Bool.not_eq_false] at hw
  simp only [Char.isWhitespace, Bool.or_eq_true, decide_eq_true_eq] at hw
  rcases hw with ((h1 | h1) | h1) | h1 <;> subst h1 <;> exact absurd h (by decide)

theorem dropWhile_eq_self_of_all_false {p : Char → Bool} {l : List Char}
    (h : ∀ c ∈ l, p c = false) : l.dropWhile p = l := by
  cases l with
  | nil => rfl
  | cons c rest =>
      rw [List.dropWhile_cons, h c (List.mem_cons_self c rest)]
      simp

theorem trimChars_eq_self {l : List Char}
    (h : ∀ c ∈ l, c.isWhitespace = false) : trimChars l = l := by
  rw [trimChars, dropWhile_eq_self_of_all_false h, dropWhile_eq_self_of_all_false,
    List.reverse_reverse]
  intro c hc
  exact h c (List.mem_reverse.mp hc)

theorem dot_not_mem_of_all_digits {l : List Char}
    (h : ∀ c ∈ l, c.isDigit = true) : '.' ∉ l := by
  intro hmem
  exact absurd (h '.' hmem) (by decide)

/-- C4: for every whole-number total-supply string and every decimals
value in [0,19], the `BigInt(total) * 10n ** BigInt(d)` computed inline by
`handleTokenize` coincides with routing the amount through
`decimalToBaseUnits` (the shared Amount Conversion routine). -/
theorem handleTokenize_total_eq_decimalToBaseUnits (t : String) (d : Nat)
    (ht : isWholeNumber t.data = true) (hd : d ≤ 19) :
    decimalToBaseUnits t d = .ok (handleTokenizeOnChainTotal t d) := by
  rcases (Bool.and_eq_true _ _).mp ht with ⟨hne, hdig⟩
  have hdig' : ∀ c ∈ t.data, c.isDigit = true := by
    intro c hc
    exact (List.all_eq_true.mp hdig) c hc
  have htrim : trimChars t.data = t.data :=
    trimChars_eq_self (fun c hc => isDigit_not_whitespace (hdig' c hc))
  have hsplit : splitOnDot t.data = [t.data] :=
    splitOnDot_no_dot t.data (dot_not_mem_of_all_digits hdig')
  have hfmt : matchesAmountFormat (trimChars t.data) = true := by
    rw [htrim, matchesAmountFormat, hsplit]
    exact ht
  have hfrac : fracLen (trimChars t.data) ≤ d := by
    rw [htrim, fracLen, fracPart, hsplit]
    simp
  rw [decimalToBaseUnits_ok_form t d hfmt hfrac, htrim, wholePart, fracPart, fracLen,
    fracPart, hsplit]
  simp [handleTokenizeOnChainTotal]

theorem handleTokenize_total_eq_decimalToBaseUnits_witness :
    isWholeNumber ("1000" : String).data = true ∧ 6 ≤ 19 ∧
    decimalToBaseUnits "1000" 6 = .ok (handleTokenizeOnChainTotal "1000" 6) :=
  ⟨by decide, by decide,
    handleTokenize_total_eq_decimalToBaseUnits "1000" 6 (by decide) (by decide)⟩

/-- C1: the facade resolves exactly one active identity with federated
precedence: federated connected with a derived account wins regardless of
the traditional provider; otherwise a truthy traditional address wins;
otherwise both the address and the kind are absent. -/
theorem useUnifiedWallet_resolution (w : Web3AuthState) (t : TraditionalWalletState) :
    (∀ a, w.isConnected = true → w.algorandAccount = some a →
      unifiedActiveAddress w t = some a.address ∧
        unifiedWalletKind w t = some .web3auth) ∧
    (isWeb3AuthActive w = false → isTraditionalActive t = true →
      unifiedActiveAddress w t = t.activeAddress ∧
        unifiedWalletKind w t = some .traditional) ∧
    (isWeb3AuthActive w = false → isTraditionalActive t = false →
      unifiedActiveAddress w t = none ∧ unifiedWalletKind w t = none) := by
  refine ⟨?_, ?_, ?_⟩
  · intro a hc ha
    have hact : isWeb3AuthActive w = true := by
      rw [isWeb3AuthActive, hc, ha]; rfl
    rw [unifiedActiveAddress, unifiedWalletKind, hact, ha]
    simp
  · intro hact htrad
    rw [isTraditionalActive] at htrad
    rcases ht : t.activeAddress with _ | s
    · rw [ht] at htrad; simp [jsTruthyOpt] at htrad
    · rw [ht] at htrad
      have hs : s.isEmpty = false := by simpa [jsTruthyOpt] using htrad
      rw [unifiedActiveAddress, unifiedWalletKind, isTraditionalActive, ht]
      simp [hact, jsTruthyOpt, jsOrNull, hs]
  · intro hact htrad
    rw [isTraditionalActive] at htrad
    rw [unifiedActiveAddress, unifiedWalletKind, isTraditionalActive]
    rcases ht : t.activeAddress with _ | s
    · simp [hact, jsOrNull, jsTruthyOpt]
    · rw [ht] at htrad
      have hs : s.isEmpty = true := by simpa [jsTruthyOpt] using htrad
      simp [hact, jsOrNull, jsTruthyOpt, hs]

theorem useUnifiedWallet_resolution_witness :
    unifiedActiveAddress ⟨true, some ⟨"FEDADDR"⟩⟩ ⟨some "TRADADDR"⟩ = some "FEDADDR" ∧
    unifiedWalletKind ⟨true, some ⟨"FEDADDR"⟩⟩ ⟨some "TRADADDR"⟩ = some .web3auth :=
  (useUnifiedWallet_resolution ⟨true, some ⟨"FEDADDR"⟩⟩ ⟨some "TRADADDR"⟩).1
    ⟨"FEDADDR"⟩ rfl rfl

/-- When neither provider is active the merged address is absent. -/
theorem unifiedActiveAddress_none {w : Web3AuthState} {t : TraditionalWalletState}
    (hw : isWeb3AuthActive w = false) (ht : isTraditionalActive t = false) :
    unifiedActiveAddress w t = none := by
  rw [unifiedActiveAddress, hw]
  rw [isTraditionalActive] at ht
  simp only [Bool.false_eq_true, if_false]
  rcases hta : t.activeAddress with _ | s
  · rfl
  · rw [hta] at ht
    have hs : s.isEmpty = true := by simpa [jsTruthyOpt] using ht
    simp [jsOrNull, hs]

/-- C5: `disconnect` tears down exactly the providers that are active
(both teardowns run when both transiently report activity), and once both
teardowns are reflected in the provider states the facade's
`activeAddress` is absent, whichever provider was active beforehand. -/
theorem unifiedDisconnect_teardown (w : Web3AuthState) (t : TraditionalWalletState) :
    (unifiedDisconnect w t).1.web3AuthLogout = isWeb3AuthActive w ∧
    (unifiedDisconnect w t).1.traditionalDisconnect = isTraditionalActive t ∧
    unifiedActiveAddress (unifiedDisconnect w t).2.1 (unifiedDisconnect w t).2.2 = none := by
  refine ⟨rfl, rfl, ?_⟩
  simp only [unifiedDisconnect]
  apply unifiedActiveAddress_none
  · by_cases hw : isWeb3AuthActive w
    · rw [if_pos hw]; rfl
    · rw [if_neg hw, Bool.not_eq_true] at *; exact hw
  · by_cases ht : isTraditionalActive t
    · rw [if_pos ht]; rfl
    · rw [if_neg ht, Bool.not_eq_true] at *; exact ht

/-- C6: on any login failure the session state is fully rolled back to
disconnected when `login` returns — never left partially populated. -/
theorem login_rollback (env : LoginEnv) (s : Web3AuthSessionState)
    (h : loginFails env) :
    (login true env s).isConnected = false ∧ (login true env s).provider = none ∧
      (login true env s).algorandAccount = none ∧ (login true env s).userInfo = none := by
  rw [login]
  rcases hc : env.connectResult with e | op
  · simp [loginCatch]
  · rcases op with _ | p
    · simp [loginCatch]
    · rcases h with hnp | ⟨e, hd⟩
      · exact absurd hc (hnp p)
      · rw [hd]
        simp [loginCatch]

theorem login_rollback_witness :
    loginFails ⟨.error "popup closed", .error "derivation failed", none⟩ ∧
    (login true ⟨.error "popup closed", .error "derivation failed", none⟩
        ⟨false, none, none, none, none, false⟩).isConnected = false ∧
    (login true ⟨.error "popup closed", .error "derivation failed", none⟩
        ⟨false, none, none, none, none, false⟩).provider = none ∧
    (login true ⟨.error "popup closed", .error "derivation failed", none⟩
        ⟨false, none, none, none, none, false⟩).algorandAccount = none ∧
    (login true ⟨.error "popup closed", .error "derivation failed", none⟩
        ⟨false, none, none, none, none, false⟩).userInfo = none :=
  ⟨Or.inl (fun p h => by simp at h),
    login_rollback ⟨.error "popup closed", .error "derivation failed", none⟩
      ⟨false, none, none, none, none, false⟩ (Or.inl (fun p h => by simp at h))⟩

/-- C7: if the on-chain `assetCreate` submission throws, the persisted
asset history after `handleTokenize` equals the history before it —
`persistAsset` only runs after a successful submission. -/
theorem handleTokenize_failure_preserves_history (inp : TokenizeInputs)
    (e : String) (now : String) (stored : List CreatedAsset) :
    handleTokenize inp (.error e) now stored = stored := by
  rw [handleTokenize]
  split
  · rfl
  · split
    · rfl
    · split
      · rfl
      · split
        · rfl
        · split
          · rfl
          · rfl

/-- C8: after a first successful call, every subsequent call (whatever
the environment) returns the same instance without redoing setup and
leaves the memo unchanged; and a missing (or empty) client identifier is
a thrown initialization error, not a silent return. -/
theorem initWeb3Auth_memoized_and_fatal :
    (∀ (c : Option String) (b : Bool) (c2 : Option String) (b2 : Bool)
        (st : Option Web3AuthInstanceModel) (inst : Web3AuthInstanceModel),
      (initWeb3Auth c b st).1 = .ok inst →
        initWeb3Auth c2 b2 (initWeb3Auth c b st).2 =
          (.ok inst, (initWeb3Auth c b st).2)) ∧
    (∀ (c : Option String) (b : Bool), jsTruthyOpt c = false →
      (initWeb3Auth c b none).1 = .error .missingClientId) := by
  constructor
  · intro c b c2 b2 st inst hok
    have hmemo : (initWeb3Auth c b st).2 = some inst := by
      rcases st with _ | i
      · rw [initWeb3Auth] at hok ⊢
        by_cases hc : jsTruthyOpt c
        · simp only [hc, Bool.not_true, Bool.false_eq_true, if_false] at hok ⊢
          by_cases hb : b
          · simp only [hb, if_true] at hok ⊢
            simpa using hok
          · simp only [hb, Bool.false_eq_true, if_false] at hok
            exact absurd hok (by simp)
        · rw [Bool.not_eq_true] at hc
          simp only [hc, Bool.not_false, if_true] at hok
          exact absurd hok (by simp)
      · rw [initWeb3Auth] at hok ⊢
        simpa using hok
    rw [hmemo, initWeb3Auth]
  · intro c b hc
    rw [initWeb3Auth, hc]
    rfl

theorem initWeb3Auth_memoized_and_fatal_witness :
    initWeb3Auth none false (initWeb3Auth (some "client-id") true none).2 =
      (.ok ⟨"client-id"⟩, (initWeb3Auth (some "client-id") true none).2) ∧
    (initWeb3Auth none true none).1 = .error .missingClientId :=
  ⟨initWeb3Auth_memoized_and_fatal.1 (some "client-id") true none false none
      ⟨"client-id"⟩ rfl,
    initWeb3Auth_memoized_and_fatal.2 none true rfl⟩

/-- C9: the pin-image response contract — no file gives 400 with an error
field; a successful pin gives 200 with a `metadataUrl` that begins with
`ipfs://`; an upstream pinning failure gives 500 with the human-readable
message extracted from the failure. -/
theorem pinImageHandler_contract (file : Option UploadedFile)
    (pf pj : Except PinataError String) :
    (file = none → (pinImageHandler file pf pj).status = 400 ∧
      ∃ m, (pinImageHandler file pf pj).error = some m) ∧
    (∀ f h1 h2, file = some f → pf = .ok h1 → pj = .ok h2 →
      (pinImageHandler file pf pj).status = 200 ∧
        ∃ rest, (pinImageHandler file pf pj).metadataUrl = some ("ipfs://" ++ rest)) ∧
    (∀ f e, file = some f →
      (pf = .error e ∨ (pj = .error e ∧ ∃ h, pf = .ok h)) →
      (pinImageHandler file pf pj).status = 500 ∧
        (pinImageHandler file pf pj).error = some (extractPinErrorMessage e)) := by
  refine ⟨?_, ?_, ?_⟩
  · intro hf
    subst hf
    exact ⟨rfl, "No file uploaded", rfl⟩
  · intro f h1 h2 hf hpf hpj
    subst hf; subst hpf; subst hpj
    exact ⟨rfl, h2, rfl⟩
  · intro f e hf hcase
    subst hf
    rcases hcase with hpf | ⟨hpj, h, hpf⟩
    · subst hpf
      exact ⟨rfl, rfl⟩
    · subst hpf; subst hpj
      exact ⟨rfl, rfl⟩

theorem pinImageHandler_contract_witness :
    (pinImageHandler none (.ok "imghash") (.ok "jsonhash")).status = 400 ∧
    ∃ m, (pinImageHandler none (.ok "imghash") (.ok "jsonhash")).error = some m :=
  (pinImageHandler_contract none (.ok "imghash") (.ok "jsonhash")).1 rfl

/-- C10: `loadAssets` is total at the public interface — it always
returns a plain list; an absent (or falsy) stored value and a failing
parse both give the empty list, and a successful parse gives the decoded
list. -/
theorem loadAssets_total (raw : Option String)
    (parse : String → Except String (List CreatedAsset)) :
    ((raw = none ∨ raw = some "") → loadAssets raw parse = []) ∧
    (∀ s e, raw = some s → parse s = .error e → loadAssets raw parse = []) ∧
    (∀ s l, raw = some s → s.isEmpty = false → parse s = .ok l →
      loadAssets raw parse = l) := by
  refine ⟨?_, ?_, ?_⟩
  · intro h
    rcases h with h | h <;> subst h <;> rfl
  · intro s e hs hp
    subst hs
    rw [loadAssets, loadAssetsBody]
    by_cases he : s.isEmpty
    · simp [he]
    · simp only [he, Bool.false_eq_true, if_false, hp]
  · intro s l hs hne hp
    subst hs
    rw [loadAssets, loadAssetsBody]
    simp only [hne, Bool.false_eq_true, if_false, hp]

theorem loadAssets_total_witness :
    loadAssets none (fun _ => Except.error "SyntaxError: Unexpected token") = [] :=
  (loadAssets_total none (fun _ => Except.error "SyntaxError: Unexpected token")).1
    (Or.inl rfl)
